import Mathlib

/-!
Verification of the news-article synthesizer (`app.py`).

The development shallowly embeds the program's core functions:
`validate_url`, `extract_content`, `fetch_url`, `fetch_image`,
`scrape_articles`, `call_gemini_api` (with its tenacity retry policy), and
`generate_article`.  External effects are abstracted as explicit oracles:
the HTTP layer is a function from URL to a fetched (already parsed) markup
tree or a failure, the image endpoint is a function from URL to a status
plus body or a network error, and the generative service is a function from
prompt and attempt number to a text or a failure.  Python strings are
modelled as Lean `String`, with Python's `split`, `strip`, list indexing
and truthiness re-implemented over character lists so that every
definition evaluates inside the kernel.
-/

/-! ## Python string primitives -/

/-- Whitespace as recognised by Python's `str.strip()` / `str.split()`
(ASCII fragment). -/
def pyIsSpace (c : Char) : Bool :=
  c = ' ' || c = '\t' || c = '\n' || c = '\r' || c = '\x0b' || c = '\x0c'

/-- Split a character list at every whitespace character, keeping empty
pieces (the analogue of `String.split` on a whitespace predicate). -/
def splitWs : List Char → List (List Char)
  | [] => [[]]
  | c :: cs =>
    if pyIsSpace c then [] :: splitWs cs
    else
      match splitWs cs with
      | [] => [[c]]
      | p :: ps => (c :: p) :: ps

/-- Python's no-argument `str.split()`: split on whitespace runs and drop
empty pieces. -/
def pyWords (s : String) : List String :=
  ((splitWs s.toList).map String.mk).filter (fun w => w ≠ "")

/-- If `sep` is a leading segment of `l`, return the remainder of `l`. -/
def matchSep? : List Char → List Char → Option (List Char)
  | [], l => some l
  | _ :: _, [] => none
  | c :: cs, x :: xs => if c = x then matchSep? cs xs else none

/-- Fuelled worker for separator splitting; the fuel is an upper bound on
the length of the list, so the fuel-exhausted branch is unreachable in
`pySplitOn` below. -/
def splitOnFuel (sep : List Char) : Nat → List Char → List (List Char)
  | _, [] => [[]]
  | 0, l => [l]
  | Nat.succ fuel, x :: xs =>
    match matchSep? sep (x :: xs) with
    | some rest => [] :: splitOnFuel sep fuel rest
    | none =>
      match splitOnFuel sep fuel xs with
      | [] => [[x]]
      | p :: ps => (x :: p) :: ps

/-- Python's `s.split(sep)` for a non-empty separator. -/
def pySplitOn (s sep : String) : List String :=
  (splitOnFuel sep.toList s.toList.length s.toList).map String.mk

/-- Python's `str.strip()`: drop whitespace from both ends. -/
def pyStrip (s : String) : String :=
  String.mk (((s.toList.dropWhile pyIsSpace).reverse.dropWhile pyIsSpace).reverse)

/-- Python's `s.startswith(pre)`. -/
def pyStartsWith (s pre : String) : Bool :=
  (matchSep? pre.toList s.toList).isSome

/-- Python list indexing `l[i]`: raises `IndexError("list index out of
range")` when out of bounds. -/
def pyIndex (l : List String) (i : Nat) : Except String String :=
  match l.get? i with
  | some s => Except.ok s
  | none => Except.error "list index out of range"

/-! ## `validate_url` (app.py lines 27-35)

`urlparse` is modelled after CPython's `urllib.parse.urlsplit`: the scheme
is the prefix before the first `':'` when it starts with an ASCII letter
and consists of scheme characters; the netloc is present when the
remainder starts with `"//"` and extends to the next `'/'`, `'?'` or
`'#'`; a netloc with unbalanced square brackets raises
`ValueError("Invalid IPv6 URL")`. -/

def schemeChar (c : Char) : Bool :=
  c.isAlphanum || c = '+' || c = '-' || c = '.'

/-- Split a character list at the first `':'`, when present. -/
def takeUntilColon : List Char → Option (List Char × List Char)
  | [] => none
  | c :: cs =>
    if c = ':' then some ([], cs)
    else
      match takeUntilColon cs with
      | some (p, r) => some (c :: p, r)
      | none => none

/-- Extract the (lower-cased) scheme and the remaining characters. -/
def splitSchemeRest (cs : List Char) : List Char × List Char :=
  match takeUntilColon cs with
  | some (p, r) =>
    match p with
    | [] => ([], cs)
    | c0 :: tail =>
      if c0.isAlpha && (c0 :: tail).all schemeChar then
        ((c0 :: tail).map Char.toLower, r)
      else ([], cs)
  | none => ([], cs)

structure UrlParts where
  scheme : String
  netloc : String
deriving DecidableEq, Repr

/-- `urllib.parse.urlparse`, restricted to the two components the program
reads; the `Except` models the `ValueError` it can raise. -/
def urlparse (url : String) : Except String UrlParts :=
  let sr := splitSchemeRest url.toList
  let netloc :=
    match sr.2 with
    | '/' :: '/' :: r2 => r2.takeWhile (fun c => !(c = '/' || c = '?' || c = '#'))
    | _ => []
  if (netloc.contains '[' && !netloc.contains ']') ||
      (netloc.contains ']' && !netloc.contains '[') then
    Except.error "Invalid IPv6 URL"
  else
    Except.ok { scheme := String.mk sr.1, netloc := String.mk netloc }

/-- `validate_url`: `all([result.scheme, result.netloc])` under a
`try/except` that maps any parse error to `False`. -/
def validate_url (url : String) : Bool :=
  match urlparse url with
  | Except.ok result => result.scheme != "" && result.netloc != ""
  | Except.error _ => false

/-! ## The markup tree and `extract_content` (app.py lines 70-118)

Raw markup is modelled as an already parsed tree of elements and text,
which is what BeautifulSoup hands to the extraction code. -/

inductive HtmlNode where
  | text (s : String)
  | elem (tag : String) (attrs : List (String × String)) (children : List HtmlNode)

/-- `tag.get(key, dflt)` on an element's attributes. -/
def attrGet (attrs : List (String × String)) (key dflt : String) : String :=
  match attrs.find? (fun kv => kv.1 == key) with
  | some kv => kv.2
  | none => dflt

/-- Attribute lookup on a node (text nodes have no attributes). -/
def attrOf (n : HtmlNode) (key dflt : String) : String :=
  match n with
  | .text _ => dflt
  | .elem _ attrs _ => attrGet attrs key dflt

mutual

/-- `tag.decompose()` applied to every element with a tag in `ts`. -/
def removeTags (ts : List String) : HtmlNode → Option HtmlNode
  | .text s => some (.text s)
  | .elem tag attrs children =>
    if ts.contains tag then none
    else some (.elem tag attrs (removeTagsList ts children))

def removeTagsList (ts : List String) : List HtmlNode → List HtmlNode
  | [] => []
  | h :: t =>
    match removeTags ts h with
    | some h2 => h2 :: removeTagsList ts t
    | none => removeTagsList ts t

end

mutual

/-- `soup.find(tag)`: first element with the given tag in document order. -/
def findTag (tag : String) : HtmlNode → Option HtmlNode
  | .text _ => none
  | .elem t a c => if t = tag then some (.elem t a c) else findTagList tag c

def findTagList (tag : String) : List HtmlNode → Option HtmlNode
  | [] => none
  | h :: rest =>
    match findTag tag h with
    | some r => some r
    | none => findTagList tag rest

end

mutual

/-- `tag.get_text()`: concatenation of all text descendants. -/
def getText : HtmlNode → String
  | .text s => s
  | .elem _ _ c => getTextList c

def getTextList : List HtmlNode → String
  | [] => ""
  | h :: t => getText h ++ getTextList t

end

mutual

/-- `soup.find_all` with a predicate on tag and attributes, in document
order. -/
def findAll (pred : String → List (String × String) → Bool) :
    HtmlNode → List HtmlNode
  | .text _ => []
  | .elem t a c =>
    (if pred t a then [HtmlNode.elem t a c] else []) ++ findAllList pred c

def findAllList (pred : String → List (String × String) → Bool) :
    List HtmlNode → List HtmlNode
  | [] => []
  | h :: r => findAll pred h ++ findAllList pred r

end

def isP (t : String) (_ : List (String × String)) : Bool := t == "p"

def isImg (t : String) (_ : List (String × String)) : Bool := t == "img"

/-- The multi-valued `class` attribute, as BeautifulSoup splits it. -/
def classList (attrs : List (String × String)) : List String :=
  pyWords (attrGet attrs "class" "")

/-- `find_all(['article', 'main', 'div'], class_=['content', 'article',
'post'])`: tag in the first list and some class in the second. -/
def isArticleTag (t : String) (a : List (String × String)) : Bool :=
  (["article", "main", "div"].contains t) &&
    ((classList a).any (fun c => ["content", "article", "post"].contains c))

/-- `tag.find_all('p')` searches the descendants of a container. -/
def containerPs : HtmlNode → List HtmlNode
  | .text _ => []
  | .elem _ _ c => findAllList isP c

/-- `' '.join([p.get_text().strip() for p in paragraphs])`. -/
def joinedPs (ps : List HtmlNode) : String :=
  String.intercalate " " (ps.map (fun p => pyStrip (getText p)))

structure ImageRef where
  url : String
  alt : String
deriving DecidableEq, Repr

structure ExtractedContent where
  title : String
  content : String
  images : List ImageRef
deriving DecidableEq, Repr

def killTags : List String :=
  ["script", "style", "nav", "header", "footer", "iframe", "aside"]

/-- `extract_content`: strip boilerplate tags, resolve the title from the
first `h1` else the `title` element, collect paragraph text from
article/content/post containers (falling back to all paragraphs), and keep
at most three absolute-URL images. -/
def extract_content (doc : List HtmlNode) : ExtractedContent :=
  let soup := removeTagsList killTags doc
  let title :=
    match findTagList "h1" soup with
    | some h => pyStrip (getText h)
    | none =>
      match findTagList "title" soup with
      | some t => pyStrip (getText t)
      | none => ""
  let article_tags := findAllList isArticleTag soup
  let content :=
    if article_tags.isEmpty then joinedPs (findAllList isP soup)
    else String.join (article_tags.map (fun tag => joinedPs (containerPs tag)))
  let images :=
    (findAllList isImg soup).filterMap (fun img =>
      let src := attrOf img "src" ""
      if src != "" && pyStartsWith src "http" then
        some { url := src, alt := attrOf img "alt" "" }
      else none)
  { title := title, content := content, images := images.take 3 }

/-! ## Fetching and scraping (app.py lines 46-68, 120-146)

The HTTP layer is an oracle from URL to either a parsed markup tree or a
failure message; the image endpoint is an oracle from URL to a status code
plus body, or a network error. -/

inductive ImageResp where
  | resp (status : Nat) (body : String)
  | netError (msg : String)
deriving DecidableEq, Repr

/-- `fetch_url`: any failure is re-raised with a message naming the URL. -/
def fetch_url (fetchSvc : String → Except String (List HtmlNode)) (url : String) :
    Except String (List HtmlNode) :=
  match fetchSvc url with
  | Except.ok html => Except.ok html
  | Except.error e => Except.error ("Lỗi khi đọc URL " ++ url ++ ": " ++ e)

/-- `fetch_image`: the body on status 200, `None` on any other status, and
`None` on any network exception. -/
def fetch_image (imageSvc : String → ImageResp) (url : String) : Option String :=
  match imageSvc url with
  | ImageResp.resp status body => if status = 200 then some body else none
  | ImageResp.netError _ => none

structure FetchedImage where
  data : String
  alt : String
deriving DecidableEq, Repr

structure Article where
  url : String
  title : String
  content : String
  images : List FetchedImage
deriving DecidableEq, Repr

/-- The image-download loop inside `scrape_articles`: keep an image only
when `fetch_image` returned truthy (non-`None`, non-empty) data. -/
def downloadImages (imageSvc : String → ImageResp) (cands : List ImageRef) :
    List FetchedImage :=
  cands.filterMap (fun img =>
    match fetch_image imageSvc img.url with
    | some body => if body != "" then some { data := body, alt := img.alt } else none
    | none => none)

/-- `scrape_articles`: for each URL with non-blank text, fetch it, extract
its content, download its candidate images, and append the article; a
fetch failure propagates and aborts the whole batch. -/
def scrape_articles (fetchSvc : String → Except String (List HtmlNode))
    (imageSvc : String → ImageResp) : List String → Except String (List Article)
  | [] => Except.ok []
  | url :: rest =>
    if pyStrip url != "" then
      match fetch_url fetchSvc url with
      | Except.error e => Except.error e
      | Except.ok html =>
        let content := extract_content html
        let images := downloadImages imageSvc content.images
        match scrape_articles fetchSvc imageSvc rest with
        | Except.error e => Except.error e
        | Except.ok tail =>
          Except.ok ({ url := url, title := content.title,
                       content := content.content, images := images } :: tail)
    else scrape_articles fetchSvc imageSvc rest

/-! ## The retrying caller (app.py lines 148-165)

`call_gemini_api` is decorated with
`retry(stop=stop_after_attempt(3), wait=wait_exponential(multiplier=1,
min=4, max=10), reraise=True)`.  The generative service is an oracle from
attempt number (1-based) to a text or a failure message; the trace records
the outcome, the number of attempts made, the backoff waits performed
between attempts, and the number of fixed rate-limit cooldowns
(`time.sleep(5)` on a message containing `"429"`). -/

inductive ApiResult where
  | success (text : String)
  | failure (msg : String)
deriving DecidableEq, Repr

structure CallTrace where
  result : Except String String
  attempts : Nat
  waits : List Nat
  cooldowns : Nat
deriving Repr

/-- tenacity's `wait_exponential(multiplier, min, max)` evaluated after the
attempt with the given 1-based number. -/
def wait_exponential (multiplier mn mx attempt : Nat) : Nat :=
  max (max 0 mn) (min (multiplier * 2 ^ attempt) mx)

/-- Does the stringified exception contain `"429"`? -/
def has429 (msg : String) : Bool :=
  (pySplitOn msg "429").length > 1

/-- The tenacity attempt loop: `fuel` is the number of attempts still
allowed (the current one included). -/
def call_gemini_attempts (svcp : Nat → ApiResult) : Nat → Nat → CallTrace
  | _, 0 => { result := Except.error "", attempts := 0, waits := [], cooldowns := 0 }
  | attempt, Nat.succ fuel =>
    match svcp attempt with
    | ApiResult.success t =>
      { result := Except.ok t, attempts := 1, waits := [], cooldowns := 0 }
    | ApiResult.failure msg =>
      let cd := if has429 msg then 1 else 0
      if fuel = 0 then
        { result := Except.error msg, attempts := 1, waits := [], cooldowns := cd }
      else
        let w := wait_exponential 1 4 10 attempt
        let rest := call_gemini_attempts svcp (attempt + 1) fuel
        { result := rest.result, attempts := rest.attempts + 1,
          waits := w :: rest.waits, cooldowns := cd + rest.cooldowns }

/-- `call_gemini_api` for one prompt, given the per-attempt behaviour of
the generative service on that prompt. -/
def call_gemini_api (svcp : Nat → ApiResult) : CallTrace :=
  call_gemini_attempts svcp 1 3

/-! ## `generate_article` (app.py lines 167-260) -/

/-- The analysis prompt (`analysis_prompt` f-string, lines 178-217). -/
def analysis_prompt (combined : String) : String :=
  "\n            Phân tích và tổng hợp thành một bài báo mới từ các nguồn sau:\n\n            "
  ++ combined ++
  "\n\n            Yêu cầu:\n\n            1. Tiêu đề bài báo:\n               - Tối đa 15 từ\n               - Thu hút, tạo ấn tượng mạnh\n               - Phản ánh chính xác nội dung chính\n               - Sử dụng từ ngữ báo chí chuẩn mực\n               - Tránh giật gân, câu view\n\n            2. Cấu trúc bài viết:\n               - Tóm tắt ý chính trong đoạn mở đầu (3-4 câu)\n               - Triển khai chi tiết theo logic rõ ràng\n               - Dẫn nguồn và trích dẫn khi cần\n               - Phân tích, đánh giá khách quan\n               - Kết luận súc tích, đầy đủ\n               - Chèn chú thích cho hình ảnh phù hợp vào vị trí thích hợp trong bài viết\n\n            3. Nội dung:\n               - Tổng hợp thông tin từ nhiều nguồn\n               - Đảm bảo tính chính xác\n               - Cung cấp góc nhìn đa chiều\n               - Thêm số liệu, dữ liệu cụ thể\n               - Độ dài 800-1000 từ\n\n            4. Ngôn ngữ:\n               - Trong sáng, dễ hiểu\n               - Phong cách báo chí chuyên nghiệp\n               - Khách quan, trung lập\n               - Tránh từ ngữ cảm xúc, thiên kiến\n               - Chọn lọc từ ngữ phù hợp văn phong\n\n            Format phản hồi:\n            TITLE: [tiêu đề bài báo]\n            ARTICLE: [nội dung bài báo]\n            "

/-- The title-shortening prompt (`optimize_title_prompt` f-string, lines
228-239). -/
def optimize_title_prompt (title : String) : String :=
  "\n                    Tối ưu tiêu đề sau để ngắn gọn hơn (tối đa 15 từ) nhưng vẫn giữ được ý chính:\n                    "
  ++ title ++
  "\n\n                    Yêu cầu:\n                    - Rút gọn nhưng không mất ý nghĩa\n                    - Vẫn phải thu hút, ấn tượng\n                    - Dùng từ ngữ chính xác, súc tích\n                    - Phù hợp phong cách báo chí\n\n                    Format: TITLE: [tiêu đề tối ưu]\n                    "

/-- `combined_content`: the joined `(title, content)` pairs of the scraped
articles. -/
def combined_content (articles : List Article) : String :=
  String.intercalate "\n\n---\n\n"
    (articles.map (fun a => "Tiêu đề: " ++ a.title ++ "\nNội dung: " ++ a.content))

/-- The marker parsing of the draft response (lines 223-224):
`result.split('TITLE:')[1].split('ARTICLE:')[0].strip()` for the title,
then `result.split('ARTICLE:')[1].strip()` for the content, with Python's
fallible list indexing. -/
def parse_draft (result : String) : Except String (String × String) :=
  match pyIndex (pySplitOn result "TITLE:") 1 with
  | Except.error e => Except.error e
  | Except.ok t1 =>
    match pyIndex (pySplitOn t1 "ARTICLE:") 0 with
    | Except.error e => Except.error e
    | Except.ok t2 =>
      match pyIndex (pySplitOn result "ARTICLE:") 1 with
      | Except.error e => Except.error e
      | Except.ok c1 => Except.ok (pyStrip t2, pyStrip c1)

structure GeneratedArticle where
  title : String
  content : String
  word_count : Nat
  sources : List String
  images : List FetchedImage
deriving DecidableEq, Repr

/-- The returned record (lines 248-254): `word_count` is
`len(content.split())` on the final content, `sources` the article URLs in
order, `images` all scraped images concatenated. -/
def mkArticleRecord (title content : String) (articles : List Article) :
    GeneratedArticle :=
  { title := title, content := content,
    word_count := (pyWords content).length,
    sources := articles.map (fun a => a.url),
    images := (articles.map (fun a => a.images)).flatten }

/-- A `generate_article` run: its outcome together with the prompts it sent
through the retrying caller, in order. -/
structure GenRun where
  result : Except String GeneratedArticle
  prompts : List String

/-- The body of the inner `try` (lines 222-257): parse the draft, issue a
single conditional title-shortening call when the title exceeds 15 words
(replacing the title with the shortened result unconditionally), and build
the output record. -/
def generate_article_inner (svc : String → Nat → ApiResult)
    (articles : List Article) (result : String) :
    Except String GeneratedArticle × List String :=
  match parse_draft result with
  | Except.error e => (Except.error e, [])
  | Except.ok (title, content) =>
    if (pyWords title).length > 15 then
      let prompt2 := optimize_title_prompt title
      match (call_gemini_api (svc prompt2)).result with
      | Except.error e => (Except.error e, [prompt2])
      | Except.ok title_result =>
        match pyIndex (pySplitOn title_result "TITLE:") 1 with
        | Except.error e => (Except.error e, [prompt2])
        | Except.ok nt =>
          (Except.ok (mkArticleRecord (pyStrip nt) content articles), [prompt2])
    else (Except.ok (mkArticleRecord title content articles), [])

/-- `generate_article`: one drafting call through the retrying caller, then
the inner phase; inner failures are wrapped as
`"Lỗi khi xử lý kết quả: ..."` and every failure is re-wrapped by the outer
handler as `"Lỗi khi tạo bài báo: ..."`. -/
def generate_article (svc : String → Nat → ApiResult)
    (articles : List Article) : GenRun :=
  let prompt1 := analysis_prompt (combined_content articles)
  match (call_gemini_api (svc prompt1)).result with
  | Except.error e =>
    { result := Except.error ("Lỗi khi tạo bài báo: " ++ e), prompts := [prompt1] }
  | Except.ok result =>
    match generate_article_inner svc articles result with
    | (Except.error e, ps) =>
      { result := Except.error ("Lỗi khi tạo bài báo: " ++ ("Lỗi khi xử lý kết quả: " ++ e)),
        prompts := prompt1 :: ps }
    | (Except.ok g, ps) => { result := Except.ok g, prompts := prompt1 :: ps }


/-! ## Helper lemmas -/

theorem string_mk_eq_empty_iff (l : List Char) : String.mk l = "" ↔ l = [] := by
  constructor
  · intro h
    have h2 := congrArg String.data h
    simpa using h2
  · intro h
    subst h
    rfl

theorem takeUntilColon_eq (l p r : List Char) (h : takeUntilColon l = some (p, r)) :
    l = p ++ ':' :: r := by
  induction l generalizing p r with
  | nil => simp [takeUntilColon] at h
  | cons c cs ih =>
    by_cases hc : c = ':'
    · subst hc
      simp [takeUntilColon] at h
      obtain ⟨hp, hr⟩ := h
      subst hp; subst hr
      rfl
    · simp only [takeUntilColon, if_neg hc] at h
      cases ht : takeUntilColon cs with
      | none => rw [ht] at h; simp at h
      | some pr =>
        obtain ⟨p', r'⟩ := pr
        rw [ht] at h
        simp only [Option.some.injEq, Prod.mk.injEq] at h
        obtain ⟨hp, hr⟩ := h
        cases hp
        cases hr
        simp only [List.cons_append, List.cons.injEq, true_and]
        exact ih _ _ ht

theorem alpha_not_space (c : Char) (h : c.isAlpha = true) : pyIsSpace c = false := by
  cases hps : pyIsSpace c
  · rfl
  · exfalso
    simp only [pyIsSpace, Bool.or_eq_true, decide_eq_true_eq] at hps
    rcases hps with ((((h1 | h1) | h1) | h1) | h1) | h1 <;> subst h1 <;>
      exact absurd h (by decide)

theorem pyStrip_ne_empty_of_mem (s : String) (c : Char) (hc : c ∈ s.toList)
    (hs : pyIsSpace c = false) : pyStrip s ≠ "" := by
  intro h
  rw [pyStrip, string_mk_eq_empty_iff, List.reverse_eq_nil_iff,
    List.dropWhile_eq_nil_iff] at h
  have hmem1 : c ∈ s.toList.dropWhile pyIsSpace := by
    have hsplit := List.takeWhile_append_dropWhile (p := pyIsSpace) (l := s.toList)
    rw [← hsplit] at hc
    rcases List.mem_append.mp hc with hin | hin
    · exact absurd (List.mem_takeWhile_imp hin) (by simp [hs])
    · exact hin
  exact absurd (h c (List.mem_reverse.mpr hmem1)) (by simp [hs])

theorem splitSchemeRest_fst_ne_nil (cs : List Char)
    (h : (splitSchemeRest cs).1 ≠ []) : ∃ c, c ∈ cs ∧ c.isAlpha = true := by
  unfold splitSchemeRest at h
  cases ht : takeUntilColon cs with
  | none => rw [ht] at h; simp at h
  | some pr =>
    obtain ⟨p, r⟩ := pr
    rw [ht] at h
    dsimp only at h
    cases p with
    | nil => simp at h
    | cons c0 tail =>
      dsimp only at h
      by_cases hcond : (c0.isAlpha && (c0 :: tail).all schemeChar) = true
      · refine ⟨c0, ?_, ((Bool.and_eq_true _ _).mp hcond).1⟩
        rw [takeUntilColon_eq cs (c0 :: tail) r ht]
        simp
      · rw [if_neg hcond] at h
        simp at h

/-- A URL that `validate_url` accepts has a non-blank `strip`, so it passes
the `if url.strip():` guard in `scrape_articles`. -/
theorem validate_url_strip_ne (u : String) (h : validate_url u = true) :
    pyStrip u ≠ "" := by
  unfold validate_url at h
  cases hp : urlparse u with
  | error e => rw [hp] at h; simp at h
  | ok parts =>
    rw [hp] at h
    simp only [bne_iff_ne, Bool.and_eq_true, ne_eq] at h
    have hscheme : parts.scheme = String.mk (splitSchemeRest u.toList).1 := by
      simp only [urlparse] at hp
      split at hp
      · simp at hp
      · rw [← Except.ok.inj hp]
    have hne : (splitSchemeRest u.toList).1 ≠ [] := by
      intro hnil
      rw [hscheme, hnil] at h
      exact h.1 ((string_mk_eq_empty_iff []).mpr rfl)
    obtain ⟨c, hc, ha⟩ := splitSchemeRest_fst_ne_nil u.toList hne
    exact pyStrip_ne_empty_of_mem u c hc (alpha_not_space c ha)

/-! ## Claim C9: `validate_url` is total and non-raising -/

/-- C9: for every input string, `validate_url` returns a boolean — true
exactly when the parsed URL has both a non-empty scheme and a non-empty
network location — and never raises: a parse error (`urlparse` raising
`ValueError`) is caught and mapped to `false`. -/
theorem validate_url_total_and_classifies (url : String) :
    (validate_url url = true ∨ validate_url url = false) ∧
    (∀ parts, urlparse url = Except.ok parts →
      (validate_url url = true ↔ (parts.scheme ≠ "" ∧ parts.netloc ≠ ""))) ∧
    (∀ e, urlparse url = Except.error e → validate_url url = false) := by
  refine ⟨?_, ?_, ?_⟩
  · cases validate_url url
    · exact Or.inr rfl
    · exact Or.inl rfl
  · intro parts hp
    unfold validate_url
    rw [hp]
    simp [Bool.and_eq_true, bne_iff_ne]
  · intro e hp
    unfold validate_url
    rw [hp]

/-- Witness for C9: a URL on which `urlparse` raises (caught, giving
`false`) and a well-formed URL classified `true`. -/
theorem validate_url_total_and_classifies_witness :
    validate_url "http://[" = false ∧ validate_url "https://a.example/x" = true :=
  ⟨(validate_url_total_and_classifies "http://[").2.2 "Invalid IPv6 URL" rfl,
    ((validate_url_total_and_classifies "https://a.example/x").2.1
      { scheme := "https", netloc := "a.example" } rfl).mpr (by decide)⟩

/-! ## Claim C2: the retry policy of `call_gemini_api` -/

theorem call_gemini_attempts_le (svcp : Nat → ApiResult) :
    ∀ fuel a, (call_gemini_attempts svcp a fuel).attempts ≤ fuel := by
  intro fuel
  induction fuel with
  | zero => intro a; simp [call_gemini_attempts]
  | succ n ih =>
    intro a
    simp only [call_gemini_attempts]
    cases svcp a with
    | success t => simp
    | failure msg =>
      by_cases hn : n = 0
      · simp [hn]
      · simp only [if_neg hn]
        have := ih (a + 1)
        simp
        omega

theorem call_gemini_waits_bounded (svcp : Nat → ApiResult) :
    ∀ fuel a w, w ∈ (call_gemini_attempts svcp a fuel).waits → 4 ≤ w ∧ w ≤ 10 := by
  intro fuel
  induction fuel with
  | zero => intro a w hw; simp [call_gemini_attempts] at hw
  | succ n ih =>
    intro a w hw
    cases hm : svcp a with
    | success t =>
      simp only [call_gemini_attempts, hm] at hw
      simp at hw
    | failure msg =>
      simp only [call_gemini_attempts, hm] at hw
      by_cases hn : n = 0
      · simp [hn] at hw
      · rw [if_neg hn] at hw
        simp at hw
        rcases hw with hw | hw
        · subst hw
          unfold wait_exponential
          omega
        · exact ih (a + 1) w hw

theorem call_gemini_always_fails (svcp : Nat → ApiResult) :
    ∀ fuel a, 1 ≤ fuel →
    (∀ k, a ≤ k → k < a + fuel → ∃ m, svcp k = ApiResult.failure m) →
    (call_gemini_attempts svcp a fuel).attempts = fuel ∧
    (call_gemini_attempts svcp a fuel).waits.length = fuel - 1 ∧
    ∃ m, svcp (a + fuel - 1) = ApiResult.failure m ∧
      (call_gemini_attempts svcp a fuel).result = Except.error m := by
  intro fuel
  induction fuel with
  | zero => intro a h; omega
  | succ n ih =>
    intro a _ hfail
    obtain ⟨m, hm⟩ := hfail a (Nat.le_refl a) (by omega)
    by_cases hn : n = 0
    · subst hn
      simp only [call_gemini_attempts, hm, if_pos rfl]
      refine ⟨rfl, rfl, m, ?_, rfl⟩
      simpa using hm
    · have ihh := ih (a + 1) (by omega) (fun k hk1 hk2 => hfail k (by omega) (by omega))
      simp only [call_gemini_attempts, hm, if_neg hn]
      refine ⟨?_, ?_, ?_⟩
      · simp [ihh.1]
      · simp [ihh.2.1]
        omega
      · obtain ⟨m3, hm3, hr⟩ := ihh.2.2
        refine ⟨m3, ?_, ?_⟩
        · have : a + 1 + n - 1 = a + (n + 1) - 1 := by omega
          rw [← this]
          exact hm3
        · simpa using hr

/-- C2: `call_gemini_api` makes at most 3 attempts; every backoff wait it
performs lies between the configured minimum 4 and maximum 10; and for a
service that fails on every attempt it stops after exactly 3 attempts
(with exactly 2 waits), re-raising the failure of the last attempt. -/
theorem call_gemini_retry_policy (svcp : Nat → ApiResult) :
    (call_gemini_api svcp).attempts ≤ 3 ∧
    (∀ w ∈ (call_gemini_api svcp).waits, 4 ≤ w ∧ w ≤ 10) ∧
    ((∀ k, 1 ≤ k → k ≤ 3 → ∃ m, svcp k = ApiResult.failure m) →
      (call_gemini_api svcp).attempts = 3 ∧
      (call_gemini_api svcp).waits.length = 2 ∧
      ∃ m, svcp 3 = ApiResult.failure m ∧
        (call_gemini_api svcp).result = Except.error m) := by
  refine ⟨call_gemini_attempts_le svcp 3 1,
    fun w hw => call_gemini_waits_bounded svcp 3 1 w hw, fun hfail => ?_⟩
  have := call_gemini_always_fails svcp 3 1 (by omega)
    (fun k hk1 hk2 => hfail k hk1 (by omega))
  exact this

/-- A generative service that fails deterministically on every attempt. -/
def exAlwaysFail : Nat → ApiResult := fun _ => ApiResult.failure "boom"

/-- Witness for C2: the always-failing service makes exactly 3 attempts and
2 bounded waits, and the last failure is re-raised. -/
theorem call_gemini_retry_policy_witness :
    (call_gemini_api exAlwaysFail).attempts = 3 ∧
    (call_gemini_api exAlwaysFail).waits.length = 2 ∧
    ∃ m, exAlwaysFail 3 = ApiResult.failure m ∧
      (call_gemini_api exAlwaysFail).result = Except.error m :=
  (call_gemini_retry_policy exAlwaysFail).2.2 (fun _ _ _ => ⟨"boom", rfl⟩)

/-! ## Equation lemmas for `generate_article` -/

theorem generate_article_eq (svc : String → Nat → ApiResult)
    (articles : List Article) (r : String)
    (h1 : (call_gemini_api (svc (analysis_prompt (combined_content articles)))).result
            = Except.ok r) :
    generate_article svc articles =
      { result :=
          match (generate_article_inner svc articles r).1 with
          | Except.error e =>
            Except.error ("Lỗi khi tạo bài báo: " ++ ("Lỗi khi xử lý kết quả: " ++ e))
          | Except.ok g => Except.ok g,
        prompts := analysis_prompt (combined_content articles)
          :: (generate_article_inner svc articles r).2 } := by
  simp only [generate_article]
  rw [h1]
  dsimp only
  rcases hi : generate_article_inner svc articles r with ⟨res, ps⟩
  cases res <;> rfl

theorem generate_article_inner_eq (svc : String → Nat → ApiResult)
    (articles : List Article) (r title content : String)
    (h2 : parse_draft r = Except.ok (title, content)) :
    generate_article_inner svc articles r =
      if (pyWords title).length > 15 then
        match (call_gemini_api (svc (optimize_title_prompt title))).result with
        | Except.error e => (Except.error e, [optimize_title_prompt title])
        | Except.ok tr =>
          match pyIndex (pySplitOn tr "TITLE:") 1 with
          | Except.error e => (Except.error e, [optimize_title_prompt title])
          | Except.ok nt =>
            (Except.ok (mkArticleRecord (pyStrip nt) content articles),
             [optimize_title_prompt title])
      else (Except.ok (mkArticleRecord title content articles), []) := by
  simp only [generate_article_inner, h2]

theorem generate_article_inner_ok_shape (svc : String → Nat → ApiResult)
    (articles : List Article) (r : String) (g : GeneratedArticle) (ps : List String)
    (h : generate_article_inner svc articles r = (Except.ok g, ps)) :
    ∃ t c, g = mkArticleRecord t c articles := by
  unfold generate_article_inner at h
  cases hpd : parse_draft r with
  | error e => rw [hpd] at h; simp at h
  | ok tc =>
    obtain ⟨t, c⟩ := tc
    rw [hpd] at h
    dsimp only at h
    by_cases hlen : (pyWords t).length > 15
    · rw [if_pos hlen] at h
      cases hres : (call_gemini_api (svc (optimize_title_prompt t))).result with
      | error e => rw [hres] at h; simp at h
      | ok tr =>
        rw [hres] at h
        dsimp only at h
        cases hidx : pyIndex (pySplitOn tr "TITLE:") 1 with
        | error e => rw [hidx] at h; simp at h
        | ok nt =>
          rw [hidx] at h
          simp only [Prod.mk.injEq, Except.ok.injEq] at h
          exact ⟨pyStrip nt, c, h.1.symm⟩
    · rw [if_neg hlen] at h
      simp only [Prod.mk.injEq, Except.ok.injEq] at h
      exact ⟨t, c, h.1.symm⟩

theorem generate_article_ok_shape (svc : String → Nat → ApiResult)
    (articles : List Article) (g : GeneratedArticle)
    (h : (generate_article svc articles).result = Except.ok g) :
    ∃ t c, g = mkArticleRecord t c articles := by
  cases h1 : (call_gemini_api
      (svc (analysis_prompt (combined_content articles)))).result with
  | error e =>
    simp only [generate_article] at h
    rw [h1] at h
    simp at h
  | ok r =>
    rw [generate_article_eq svc articles r h1] at h
    dsimp only at h
    rcases hi : generate_article_inner svc articles r with ⟨res, ps⟩
    rw [hi] at h
    cases res with
    | error e => simp at h
    | ok g' =>
      simp only [Except.ok.injEq] at h
      subst h
      exact generate_article_inner_ok_shape svc articles r g' ps hi

/-! ## Concrete example inputs -/

/-- Example scraped article used as concrete input. -/
def exArticleA : Article :=
  { url := "https://a.example/x", title := "Nguồn A",
    content := "Nội dung nguồn A", images := [] }

/-- A generative service answering every prompt with a well-formed but very
short draft (2-word title, 4-word body). -/
def exSvcShort : String → Nat → ApiResult :=
  fun _ _ => ApiResult.success "TITLE: Tin mới ARTICLE: Nội dung rất ngắn."

/-- A 16-word title, exceeding the 15-word bound. -/
def exLongTitle : String :=
  "Một hai ba bốn năm sáu bảy tám chín mười một hai ba bốn năm sáu"

/-- A generative service answering every prompt with a draft whose title
has 16 words. -/
def exSvcLong : String → Nat → ApiResult :=
  fun _ _ => ApiResult.success ("TITLE: " ++ exLongTitle ++ " ARTICLE: Nội dung rất ngắn.")

/-! ## Claim C5: `word_count` is recomputed from the final content -/

/-- C5: every successfully constructed output record satisfies
`word_count = len(content.split())` on its own final `content`. -/
theorem word_count_recomputed (svc : String → Nat → ApiResult)
    (articles : List Article) (g : GeneratedArticle)
    (h : (generate_article svc articles).result = Except.ok g) :
    g.word_count = (pyWords g.content).length := by
  obtain ⟨t, c, rfl⟩ := generate_article_ok_shape svc articles g h
  rfl

/-- Witness for C5 at a concrete run. -/
theorem word_count_recomputed_witness :
    (generate_article exSvcShort [exArticleA]).result
      = Except.ok (mkArticleRecord "Tin mới" "Nội dung rất ngắn." [exArticleA]) ∧
    (mkArticleRecord "Tin mới" "Nội dung rất ngắn." [exArticleA]).word_count
      = (pyWords (mkArticleRecord "Tin mới" "Nội dung rất ngắn." [exArticleA]).content).length :=
  ⟨rfl, word_count_recomputed exSvcShort [exArticleA] _ rfl⟩

/-! ## Claim C1: there is no expansion loop -/

theorem generate_article_inner_prompts (svc : String → Nat → ApiResult)
    (articles : List Article) (r : String) :
    (generate_article_inner svc articles r).2 = [] ∨
    ∃ t, (generate_article_inner svc articles r).2 = [optimize_title_prompt t] ∧
      (pyWords t).length > 15 := by
  unfold generate_article_inner
  cases hpd : parse_draft r with
  | error e => exact Or.inl rfl
  | ok tc =>
    obtain ⟨t, c⟩ := tc
    dsimp only
    by_cases hlen : (pyWords t).length > 15
    · rw [if_pos hlen]
      refine Or.inr ⟨t, ?_, hlen⟩
      cases hres : (call_gemini_api (svc (optimize_title_prompt t))).result with
      | error e => rfl
      | ok tr =>
        dsimp only
        cases hidx : pyIndex (pySplitOn tr "TITLE:") 1 with
        | error e => rfl
        | ok nt => rfl
    · rw [if_neg hlen]
      exact Or.inl rfl

/-- C1 (amended): `generate_article` has no expansion loop: every run sends
at most two prompts — the single drafting prompt first, and (only when the
drafted title exceeds 15 words) one title-shortening prompt.  No prompt is
ever issued because of the body's word count, and there is no
`ConvergenceError`: the drafted body is accepted at whatever length it
has. -/
theorem generate_article_no_expansion (svc : String → Nat → ApiResult)
    (articles : List Article) :
    ((generate_article svc articles).prompts.length ≤ 2) ∧
    ((generate_article svc articles).prompts.get? 0 =
      some (analysis_prompt (combined_content articles))) ∧
    (∀ p, (generate_article svc articles).prompts.get? 1 = some p →
      ∃ t, p = optimize_title_prompt t ∧ (pyWords t).length > 15) := by
  cases h1 : (call_gemini_api
      (svc (analysis_prompt (combined_content articles)))).result with
  | error e =>
    have hg : generate_article svc articles =
        { result := Except.error ("Lỗi khi tạo bài báo: " ++ e),
          prompts := [analysis_prompt (combined_content articles)] } := by
      simp only [generate_article]
      rw [h1]
    rw [hg]
    refine ⟨by simp, rfl, ?_⟩
    intro p hp
    simp at hp
  | ok r =>
    rw [generate_article_eq svc articles r h1]
    dsimp only
    rcases generate_article_inner_prompts svc articles r with hps | ⟨t, hps, hlen⟩
    · rw [hps]
      refine ⟨by simp, rfl, ?_⟩
      intro p hp
      simp at hp
    · rw [hps]
      refine ⟨by simp, rfl, ?_⟩
      intro p hp
      simp at hp
      subst hp
      exact ⟨t, rfl, hlen⟩

/-- C1 counterexample: a run whose drafted body has 4 words — far below any
500-word minimum — is accepted as the final article: the run succeeds with
`word_count = 4`, only the single drafting prompt was sent (no expansion
re-invocation), and no error is raised. -/
theorem generate_article_accepts_short_draft :
    (generate_article exSvcShort [exArticleA]).result
      = Except.ok { title := "Tin mới", content := "Nội dung rất ngắn.",
                    word_count := 4, sources := ["https://a.example/x"],
                    images := [] } ∧
    (generate_article exSvcShort [exArticleA]).prompts.length = 1 ∧
    4 < 500 :=
  ⟨rfl, rfl, by omega⟩

/-- Witness for C1 (amended) at a concrete run with a 16-word title. -/
theorem generate_article_no_expansion_witness :
    (generate_article exSvcLong [exArticleA]).prompts.length ≤ 2 ∧
    ∃ t, optimize_title_prompt exLongTitle = optimize_title_prompt t ∧
      (pyWords t).length > 15 :=
  ⟨(generate_article_no_expansion exSvcLong [exArticleA]).1,
    (generate_article_no_expansion exSvcLong [exArticleA]).2.2
      (optimize_title_prompt exLongTitle) rfl⟩

/-! ## Claim C4: title-length enforcement is a single conditional retry -/

/-- C4: given a drafted response that parses into `(title, content)`: a
title within the 15-word bound is never resubmitted (only the drafting
prompt is sent, and it becomes the output title); a title exceeding the
bound triggers exactly one additional shortening call whose parsed result
replaces the title unconditionally — with no re-check of its length. -/
theorem title_shortening_single_conditional (svc : String → Nat → ApiResult)
    (articles : List Article) (r title content : String)
    (h1 : (call_gemini_api (svc (analysis_prompt (combined_content articles)))).result
            = Except.ok r)
    (h2 : parse_draft r = Except.ok (title, content)) :
    ((pyWords title).length ≤ 15 →
      (generate_article svc articles).prompts
          = [analysis_prompt (combined_content articles)] ∧
      (generate_article svc articles).result
          = Except.ok (mkArticleRecord title content articles)) ∧
    ((pyWords title).length > 15 →
      (generate_article svc articles).prompts
          = [analysis_prompt (combined_content articles), optimize_title_prompt title] ∧
      (∀ tr nt,
        (call_gemini_api (svc (optimize_title_prompt title))).result = Except.ok tr →
        pyIndex (pySplitOn tr "TITLE:") 1 = Except.ok nt →
        (generate_article svc articles).result
            = Except.ok (mkArticleRecord (pyStrip nt) content articles))) := by
  have hg := generate_article_eq svc articles r h1
  have hi := generate_article_inner_eq svc articles r title content h2
  constructor
  · intro hlen
    rw [if_neg (by omega)] at hi
    rw [hg, hi]
    exact ⟨rfl, rfl⟩
  · intro hlen
    rw [if_pos hlen] at hi
    constructor
    · rw [hg, hi]
      cases hres : (call_gemini_api (svc (optimize_title_prompt title))).result with
      | error e => rfl
      | ok tr =>
        dsimp only
        cases hidx : pyIndex (pySplitOn tr "TITLE:") 1 with
        | error e => rfl
        | ok nt => rfl
    · intro tr nt htr hnt
      rw [hg, hi, htr]
      dsimp only
      rw [hnt]

/-- Witness for C4: a 16-word draft title causes exactly one shortening
call, whose parsed result — itself still longer than 15 words — replaces
the title unconditionally. -/
theorem title_shortening_single_conditional_witness :
    (generate_article exSvcLong [exArticleA]).prompts
        = [analysis_prompt (combined_content [exArticleA]),
           optimize_title_prompt exLongTitle] ∧
    (generate_article exSvcLong [exArticleA]).result
        = Except.ok (mkArticleRecord
            (exLongTitle ++ " ARTICLE: Nội dung rất ngắn.")
            "Nội dung rất ngắn." [exArticleA]) := by
  have h := title_shortening_single_conditional exSvcLong [exArticleA]
    ("TITLE: " ++ exLongTitle ++ " ARTICLE: Nội dung rất ngắn.")
    exLongTitle "Nội dung rất ngắn." rfl rfl
  have h2 := h.2 (by decide)
  refine ⟨h2.1, ?_⟩
  have h3 := h2.2 ("TITLE: " ++ exLongTitle ++ " ARTICLE: Nội dung rất ngắn.")
    (" " ++ exLongTitle ++ " ARTICLE: Nội dung rất ngắn.") rfl rfl
  rw [h3]
  rfl

/-! ## Claim C3: malformed model output does not yield a distinct error -/

theorem splitOnFuel_ne_nil (sep : List Char) :
    ∀ fuel l, splitOnFuel sep fuel l ≠ [] := by
  intro fuel
  induction fuel with
  | zero => intro l; cases l <;> simp [splitOnFuel]
  | succ n ih =>
    intro l
    cases l with
    | nil => simp [splitOnFuel]
    | cons x xs =>
      simp only [splitOnFuel]
      cases matchSep? sep (x :: xs) with
      | some rest => simp
      | none =>
        cases h : splitOnFuel sep n xs with
        | nil => simp
        | cons p ps => simp

theorem pySplitOn_ne_nil (s sep : String) : pySplitOn s sep ≠ [] := by
  unfold pySplitOn
  cases h : splitOnFuel sep.toList s.toList.length s.toList with
  | nil => exact absurd h (splitOnFuel_ne_nil _ _ _)
  | cons p ps => simp

theorem pyIndex_zero_of_ne_nil (l : List String) (h : l ≠ []) :
    ∃ x, pyIndex l 0 = Except.ok x := by
  cases l with
  | nil => exact absurd rfl h
  | cons a t => exact ⟨a, rfl⟩

theorem pyIndex_one_of_len_one (l : List String) (h : l.length = 1) :
    pyIndex l 1 = Except.error "list index out of range" := by
  obtain ⟨a, rfl⟩ := List.length_eq_one.mp h
  rfl

theorem pyIndex_error_msg (l : List String) (i : Nat) (e : String)
    (h : pyIndex l i = Except.error e) : e = "list index out of range" := by
  unfold pyIndex at h
  cases hg : l.get? i with
  | none => rw [hg] at h; exact (Except.error.inj h).symm
  | some s => rw [hg] at h; simp at h

theorem parse_draft_missing (r : String)
    (habs : (pySplitOn r "TITLE:").length = 1 ∨ (pySplitOn r "ARTICLE:").length = 1) :
    parse_draft r = Except.error "list index out of range" := by
  unfold parse_draft
  rcases habs with hT | hA
  · rw [pyIndex_one_of_len_one _ hT]
  · cases hT : pyIndex (pySplitOn r "TITLE:") 1 with
    | error e =>
      have he := pyIndex_error_msg _ _ _ hT
      subst he
      rfl
    | ok t1 =>
      dsimp only
      obtain ⟨x, hx⟩ := pyIndex_zero_of_ne_nil (pySplitOn t1 "ARTICLE:")
        (pySplitOn_ne_nil t1 "ARTICLE:")
      rw [hx]
      dsimp only
      rw [pyIndex_one_of_len_one _ hA]

/-- C3 (amended): when the draft response lacks the `TITLE:` or the
`ARTICLE:` marker, the run fails with Python's `IndexError` wrapped into
generic exception strings — `"Lỗi khi tạo bài báo: Lỗi khi xử lý kết quả:
list index out of range"` — not with a distinct `FormatError`; no
structured error kind distinguishes this from a generation failure. -/
theorem missing_marker_generic_error (svc : String → Nat → ApiResult)
    (articles : List Article) (r : String)
    (h1 : (call_gemini_api (svc (analysis_prompt (combined_content articles)))).result
            = Except.ok r)
    (habs : (pySplitOn r "TITLE:").length = 1 ∨ (pySplitOn r "ARTICLE:").length = 1) :
    (generate_article svc articles).result
      = Except.error "Lỗi khi tạo bài báo: Lỗi khi xử lý kết quả: list index out of range" := by
  have hinner : generate_article_inner svc articles r
      = (Except.error "list index out of range", []) := by
    unfold generate_article_inner
    rw [parse_draft_missing r habs]
  rw [generate_article_eq svc articles r h1, hinner]
  rfl

/-- A response with no field markers at all. -/
def exSvcNoMarkers : String → Nat → ApiResult :=
  fun _ _ => ApiResult.success "Bài báo tổng hợp không có đánh dấu định dạng"

/-- A response whose markers appear out of order. -/
def exSvcOutOfOrder : String → Nat → ApiResult :=
  fun _ _ => ApiResult.success "ARTICLE: nội dung TITLE: tiêu đề"

/-- A response with `TITLE:` but no `ARTICLE:` marker. -/
def exSvcOnlyTitle : String → Nat → ApiResult :=
  fun _ _ => ApiResult.success "TITLE: chỉ có tiêu đề"

/-- C3 counterexample: a response with no markers fails with the generic
wrapped `IndexError` text (no distinct `FormatError` exists), and a
response with the markers out of order does not fail at all — it silently
mis-parses into a title and a content that still contains the `TITLE:`
marker. -/
theorem marker_violation_counterexample :
    (generate_article exSvcNoMarkers [exArticleA]).result
      = Except.error "Lỗi khi tạo bài báo: Lỗi khi xử lý kết quả: list index out of range" ∧
    (generate_article exSvcOutOfOrder [exArticleA]).result
      = Except.ok { title := "tiêu đề", content := "nội dung TITLE: tiêu đề",
                    word_count := 5, sources := ["https://a.example/x"],
                    images := [] } :=
  ⟨rfl, rfl⟩

/-- Witness for C3 (amended): a response missing only `ARTICLE:`. -/
theorem missing_marker_generic_error_witness :
    (generate_article exSvcOnlyTitle [exArticleA]).result
      = Except.error "Lỗi khi tạo bài báo: Lỗi khi xử lý kết quả: list index out of range" :=
  missing_marker_generic_error exSvcOnlyTitle [exArticleA] "TITLE: chỉ có tiêu đề" rfl
    (Or.inr (by decide))

/-! ## Claim C6: source URLs are preserved in order -/

/-- C6: for every batch of URLs accepted by `validate_url` in which every
fetch succeeds, scraping succeeds and the final output's `sources` equals
the input URL list element for element, in the same order. -/
theorem source_urls_preserved (fetchSvc : String → Except String (List HtmlNode))
    (imageSvc : String → ImageResp) (svc : String → Nat → ApiResult)
    (urls : List String)
    (hval : ∀ u ∈ urls, validate_url u = true)
    (hok : ∀ u ∈ urls, ∃ d, fetchSvc u = Except.ok d) :
    ∃ arts, scrape_articles fetchSvc imageSvc urls = Except.ok arts ∧
      arts.map (fun a => a.url) = urls ∧
      ∀ g, (generate_article svc arts).result = Except.ok g → g.sources = urls := by
  have main : ∀ urls2 : List String, (∀ u ∈ urls2, validate_url u = true) →
      (∀ u ∈ urls2, ∃ d, fetchSvc u = Except.ok d) →
      ∃ arts, scrape_articles fetchSvc imageSvc urls2 = Except.ok arts ∧
        arts.map (fun a => a.url) = urls2 := by
    intro urls2
    induction urls2 with
    | nil => intro _ _; exact ⟨[], rfl, rfl⟩
    | cons u rest ih =>
      intro hv ho
      obtain ⟨d, hd⟩ := ho u (by simp)
      obtain ⟨arts, hart, hmap⟩ := ih (fun x hx => hv x (by simp [hx]))
        (fun x hx => ho x (by simp [hx]))
      have hstrip : pyStrip u ≠ "" := validate_url_strip_ne u (hv u (by simp))
      refine ⟨{ url := u, title := (extract_content d).title,
                content := (extract_content d).content,
                images := downloadImages imageSvc (extract_content d).images } :: arts,
              ?_, ?_⟩
      · simp only [scrape_articles]
        rw [if_pos (bne_iff_ne.mpr hstrip)]
        simp only [fetch_url, hd, hart]
      · simp [hmap]
  obtain ⟨arts, h1, h2⟩ := main urls hval hok
  refine ⟨arts, h1, h2, ?_⟩
  intro g hg
  obtain ⟨t, c, rfl⟩ := generate_article_ok_shape svc arts g hg
  simpa [mkArticleRecord] using h2

/-- A fixed parsed document with a heading and one paragraph. -/
def exDocA : List HtmlNode :=
  [HtmlNode.elem "html" [] [
    HtmlNode.elem "h1" [] [HtmlNode.text "Tiêu đề A"],
    HtmlNode.elem "p" [] [HtmlNode.text "Đoạn văn dài của bài A."]]]

/-- A fetcher for which every URL succeeds with `exDocA`. -/
def exFetchOk : String → Except String (List HtmlNode) :=
  fun _ => Except.ok exDocA

/-- An image endpoint that always fails with a network error. -/
def exImgNone : String → ImageResp :=
  fun _ => ImageResp.netError "down"

/-- Witness for C6 on a concrete two-URL request. -/
theorem source_urls_preserved_witness :
    ∃ arts, scrape_articles exFetchOk exImgNone
        ["https://a.example/x", "https://b.example/y"] = Except.ok arts ∧
      arts.map (fun a => a.url) = ["https://a.example/x", "https://b.example/y"] ∧
      ∀ g, (generate_article exSvcShort arts).result = Except.ok g →
        g.sources = ["https://a.example/x", "https://b.example/y"] :=
  source_urls_preserved exFetchOk exImgNone exSvcShort
    ["https://a.example/x", "https://b.example/y"]
    (by decide) (fun u _ => ⟨exDocA, rfl⟩)

/-! ## Claim C7: title resolution order in `extract_content` -/

/-- The title-resolution rule as the spec words it (§4.2 step 2): first
matching of open-graph title metadata, then the first level-1 heading,
then the document title element; empty string if none found.  This is the
spec-side definition, kept for comparison against the source-side
`extract_content`. -/
def specTitleResolution (doc : List HtmlNode) : String :=
  let soup := removeTagsList killTags doc
  match (findAllList
      (fun t a => t == "meta" && attrGet a "property" "" == "og:title") soup).head? with
  | some m => attrOf m "content" ""
  | none =>
    match findTagList "h1" soup with
    | some h => pyStrip (getText h)
    | none =>
      match findTagList "title" soup with
      | some t => pyStrip (getText t)
      | none => ""

/-- A document with an open-graph title, a title element and no h1. -/
def exOgDoc : List HtmlNode :=
  [HtmlNode.elem "html" [] [
    HtmlNode.elem "head" [] [
      HtmlNode.elem "meta" [("property", "og:title"), ("content", "OG Title")] [],
      HtmlNode.elem "title" [] [HtmlNode.text "Doc Title"]]]]

/-- C7 counterexample: on a document carrying an open-graph title, a title
element and no level-1 heading, the extractor returns the title element's
text: the open-graph metadata the claim puts first is never consulted. -/
theorem extract_title_og_counterexample :
    (extract_content exOgDoc).title = "Doc Title" ∧
    specTitleResolution exOgDoc = "OG Title" ∧
    ("Doc Title" : String) ≠ "OG Title" :=
  ⟨rfl, rfl, by decide⟩

/-- C7 (amended): the extractor resolves the title as the stripped text of
the first level-1 heading when one exists (after boilerplate removal),
else the stripped text of the document title element, else the empty
string; open-graph metadata is never consulted — prepending an `og:title`
meta element never changes the resolved title. -/
theorem extract_title_resolution (doc : List HtmlNode) :
    (∀ h, findTagList "h1" (removeTagsList killTags doc) = some h →
      (extract_content doc).title = pyStrip (getText h)) ∧
    (findTagList "h1" (removeTagsList killTags doc) = none →
      ∀ t, findTagList "title" (removeTagsList killTags doc) = some t →
        (extract_content doc).title = pyStrip (getText t)) ∧
    (findTagList "h1" (removeTagsList killTags doc) = none →
      findTagList "title" (removeTagsList killTags doc) = none →
      (extract_content doc).title = "") ∧
    (∀ s, (extract_content
        (HtmlNode.elem "meta" [("property", "og:title"), ("content", s)] [] :: doc)).title
      = (extract_content doc).title) := by
  refine ⟨?_, ?_, ?_, ?_⟩
  · intro h hh
    simp only [extract_content]
    rw [hh]
  · intro hn t ht
    simp only [extract_content]
    rw [hn, ht]
  · intro hn ht
    simp only [extract_content]
    rw [hn, ht]
  · intro s
    have hrm : removeTagsList killTags
        (HtmlNode.elem "meta" [("property", "og:title"), ("content", s)] [] :: doc)
        = HtmlNode.elem "meta" [("property", "og:title"), ("content", s)] []
          :: removeTagsList killTags doc := by
      simp [removeTagsList, removeTags, killTags]
    have hh1 : findTagList "h1"
        (HtmlNode.elem "meta" [("property", "og:title"), ("content", s)] []
          :: removeTagsList killTags doc)
        = findTagList "h1" (removeTagsList killTags doc) := by
      simp [findTagList, findTag]
    have htt : findTagList "title"
        (HtmlNode.elem "meta" [("property", "og:title"), ("content", s)] []
          :: removeTagsList killTags doc)
        = findTagList "title" (removeTagsList killTags doc) := by
      simp [findTagList, findTag]
    simp only [extract_content]
    rw [hrm, hh1, htt]

/-- Witness for C7 (amended) at the concrete document. -/
theorem extract_title_resolution_witness :
    (extract_content exOgDoc).title
      = pyStrip (getText (HtmlNode.elem "title" [] [HtmlNode.text "Doc Title"])) ∧
    (extract_content
        (HtmlNode.elem "meta" [("property", "og:title"), ("content", "OG Title")] []
          :: exOgDoc)).title
      = (extract_content exOgDoc).title :=
  ⟨(extract_title_resolution exOgDoc).2.1 rfl
      (HtmlNode.elem "title" [] [HtmlNode.text "Doc Title"]) rfl,
    (extract_title_resolution exOgDoc).2.2.2 "OG Title"⟩

/-! ## Claim C8: there is no partial-tolerant batch mode -/

/-- C8 (amended): `scrape_articles` is fail-fast only: when every URL is
non-blank and at least one URL's fetch fails, the whole batch fails with
an error — the failing source is not dropped and the run does not continue
with the successful ones.  Only per-image failures are tolerated. -/
theorem scrape_articles_failfast (fetchSvc : String → Except String (List HtmlNode))
    (imageSvc : String → ImageResp) (urls : List String)
    (hblank : ∀ u ∈ urls, pyStrip u ≠ "")
    (hfail : ∃ u ∈ urls, ∀ d, fetchSvc u ≠ Except.ok d) :
    ∃ e, scrape_articles fetchSvc imageSvc urls = Except.error e := by
  induction urls with
  | nil =>
    obtain ⟨u, hu, _⟩ := hfail
    simp at hu
  | cons u rest ih =>
    have hs : pyStrip u ≠ "" := hblank u (by simp)
    simp only [scrape_articles]
    rw [if_pos (bne_iff_ne.mpr hs)]
    cases hfu : fetchSvc u with
    | error e =>
      refine ⟨"Lỗi khi đọc URL " ++ u ++ ": " ++ e, ?_⟩
      simp [fetch_url, hfu]
    | ok d =>
      obtain ⟨u', hu', hf⟩ := hfail
      rcases List.mem_cons.mp hu' with heq | hmem
      · subst heq
        exact absurd hfu (hf d)
      · obtain ⟨e, he⟩ := ih (fun x hx => hblank x (by simp [hx])) ⟨u', hmem, hf⟩
        refine ⟨e, ?_⟩
        simp [fetch_url, hfu, he]

/-- A fetcher for which the first example URL succeeds and every other URL
fails. -/
def exFetchPartial : String → Except String (List HtmlNode) :=
  fun u => if u = "https://a.example/x" then Except.ok exDocA else Except.error "boom"

/-- C8 counterexample: with one succeeding and one failing fetch, the batch
does not succeed with the failing URL excluded — the whole run aborts with
the fetch error. -/
theorem scrape_articles_partial_counterexample :
    exFetchPartial "https://a.example/x" = Except.ok exDocA ∧
    exFetchPartial "https://b.example/y" = Except.error "boom" ∧
    scrape_articles exFetchPartial exImgNone
        ["https://a.example/x", "https://b.example/y"]
      = Except.error "Lỗi khi đọc URL https://b.example/y: boom" :=
  ⟨rfl, rfl, rfl⟩

/-- Witness for C8 (amended) at the concrete mixed batch. -/
theorem scrape_articles_failfast_witness :
    ∃ e, scrape_articles exFetchPartial exImgNone
        ["https://a.example/x", "https://b.example/y"] = Except.error e :=
  scrape_articles_failfast exFetchPartial exImgNone
    ["https://a.example/x", "https://b.example/y"]
    (by decide)
    ⟨"https://b.example/y", by decide, fun d h => by simp [exFetchPartial] at h⟩

/-! ## Claim C10: image download failures never fail a run -/

/-- The image-independent part of a scraped article. -/
def articleCore (a : Article) : String × String × String := (a.url, a.title, a.content)

/-- C10: `fetch_image` yields `none` on any non-200 status and on any
network error instead of propagating a failure, and the outcome of
`scrape_articles` — and every scraped article apart from its attached
images — is entirely independent of the image endpoint's behaviour:
failed images are merely omitted while scraping continues. -/
theorem image_failures_never_fatal :
    (∀ (imageSvc : String → ImageResp) url status body,
      imageSvc url = ImageResp.resp status body → status ≠ 200 →
      fetch_image imageSvc url = none) ∧
    (∀ (imageSvc : String → ImageResp) url msg,
      imageSvc url = ImageResp.netError msg → fetch_image imageSvc url = none) ∧
    (∀ (fetchSvc : String → Except String (List HtmlNode))
        (imageSvc imageSvc' : String → ImageResp) (urls : List String),
      (scrape_articles fetchSvc imageSvc urls).map (List.map articleCore)
        = (scrape_articles fetchSvc imageSvc' urls).map (List.map articleCore)) := by
  refine ⟨?_, ?_, ?_⟩
  · intro imageSvc url status body h hs
    simp [fetch_image, h, hs]
  · intro imageSvc url msg h
    simp [fetch_image, h]
  · intro fetchSvc i1 i2 urls
    induction urls with
    | nil => rfl
    | cons u rest ih =>
      simp only [scrape_articles]
      by_cases hs : (pyStrip u != "") = true
      · rw [if_pos hs, if_pos hs]
        cases hfu : fetch_url fetchSvc u with
        | error e => rfl
        | ok html =>
          dsimp only
          cases h1 : scrape_articles fetchSvc i1 rest with
          | error e =>
            cases h2 : scrape_articles fetchSvc i2 rest with
            | error e' =>
              rw [h1, h2] at ih
              simp only [Except.map] at ih
              simp at ih
              subst ih
              rfl
            | ok l2 =>
              rw [h1, h2] at ih
              simp [Except.map] at ih
          | ok l1 =>
            cases h2 : scrape_articles fetchSvc i2 rest with
            | error e' =>
              rw [h1, h2] at ih
              simp [Except.map] at ih
            | ok l2 =>
              rw [h1, h2] at ih
              simp only [Except.map, Except.ok.injEq] at ih
              simp only [Except.map, Except.ok.injEq]
              simp [articleCore, ih]
      · rw [if_neg hs, if_neg hs]
        exact ih

/-- An image endpoint answering every URL with a 404 status. -/
def exImg404 : String → ImageResp := fun _ => ImageResp.resp 404 ""

/-- Witness for C10: a 404 and a network error both yield `none`, and a
scrape's non-image outcome is the same under a failing image endpoint. -/
theorem image_failures_never_fatal_witness :
    fetch_image exImg404 "https://img.example/a.jpg" = none ∧
    fetch_image exImgNone "https://img.example/a.jpg" = none ∧
    (scrape_articles exFetchOk exImgNone ["https://a.example/x"]).map
        (List.map articleCore)
      = (scrape_articles exFetchOk exImg404 ["https://a.example/x"]).map
        (List.map articleCore) :=
  ⟨image_failures_never_fatal.1 exImg404 "https://img.example/a.jpg" 404 "" rfl
      (by decide),
    image_failures_never_fatal.2.1 exImgNone "https://img.example/a.jpg" "down" rfl,
    image_failures_never_fatal.2.2 exFetchOk exImgNone exImg404 ["https://a.example/x"]⟩
